import Mathlib

/-!
# Verification of the `vupdaters` daemon core

A shallow embedding, in Lean 4, of the parts of the `vupdaters` repository
that its specification makes claims about:

* `vu_api::dial::Percent` (`api/src/dial.rs`),
* the error taxonomy and the retry classifier `backoff_error`
  (`api/src/api.rs`, `api/src/client.rs`, `vupdaters/src/daemon.rs`),
* the metric-to-percent conversion in the `Metric::Mem` / `Metric::Swap` /
  `Metric::DiskUsage` arms of `DialManager::run` (`vupdaters/src/daemon.rs`),
* the polling loop of `DialManager::run` (pause/resume handling, sensor
  failure handling, interval ticks),
* `Config::spawn_dial_managers` (device discovery and config matching), and
* the `retry` helper together with `RetryConfig::backoff_builder`.

Machine integers are embedded as `Nat` with explicit range hypotheses where a
Rust type's width matters (`u8`, `u64`); operations that panic in Rust
(division by zero, checked-arithmetic overflow) are embedded as `Option`-valued
functions returning `none` on the panicking inputs.
-/

namespace VuApi

/-- `vu_api::dial::Percent`: a newtype over `u8` (`api/src/dial.rs`, line 46).
The payload is embedded as a `Nat`; every constructor of the Rust type goes
through `Percent::new`, which enforces `value <= 100`. -/
structure Percent where
  val : Nat
deriving Repr, DecidableEq

/-- `Percent::new` (`api/src/dial.rs`, lines 112-118): `if value > 100` return
`Err(PercentError(value))`, else `Ok(Self(value))`.  The `PercentError` payload
is the offending value, embedded as the `Nat` carried by `Except.error`. -/
def Percent.new (value : Nat) : Except Nat Percent :=
  if value > 100 then .error value else .ok ⟨value⟩

/-- `impl From<Percent> for u8` (`api/src/dial.rs`, lines 142-146): unwraps the
newtype. -/
def Percent.toU8 (p : Percent) : Nat :=
  p.val

/-- The error type matched by `backoff_error` in `vupdaters/src/daemon.rs`
(`vu_api::api::Error`).  Its variants are those of the two error enums of the
`vu-api` crate: `BuildRequest`, `BuildUrl`, `Request`, `DecodeJson`,
`ServerHttp`, `Server` from `client::Error` (`api/src/client.rs`, lines 61-95)
and `InvalidBacklight`, `InvalidValue` from `api::ApiError` (`api/src/api.rs`,
lines 20-39).  Error payloads (source errors, status codes, messages) are
elided: they play no role in classification. -/
inductive ApiError
  | BuildRequest
  | BuildUrl
  | Request
  | DecodeJson
  | ServerHttp
  | Server
  | InvalidBacklight
  | InvalidValue
deriving Repr, DecidableEq

end VuApi

namespace Vupdaters

open VuApi

/-- The two constructors of `backoff::Error` used by the daemon:
`backoff::Error::permanent` aborts retrying, `backoff::Error::transient`
allows another attempt. -/
inductive BackoffClass
  | permanent
  | transient
deriving Repr, DecidableEq

/-- `backoff_error` (`vupdaters/src/daemon.rs`, lines 728-737): the match
lists `Error::BuildUrl`, `Error::BuildRequest`, `Error::InvalidBacklight` and
`Error::InvalidValue` as permanent; the wildcard arm makes every other
variant transient. -/
def backoff_error : ApiError → BackoffClass
  | .BuildUrl => .permanent
  | .BuildRequest => .permanent
  | .InvalidBacklight => .permanent
  | .InvalidValue => .permanent
  | _ => .transient

/-- The metric-to-percent conversion shared by the `Metric::Mem`
(`vupdaters/src/daemon.rs`, lines 593-597), `Metric::Swap` (lines 608-612) and
`Metric::DiskUsage` (lines 656-670) arms of `DialManager::run`:

```rust
let percent_free = free.0 / (total.0 / 100);
let percent_used = 100 - percent_free;
```

`free` and `total` are `u64` byte counts.  Rust's `u64` division panics when
the divisor `total / 100` is zero (i.e. `total < 100`), and the subtraction
`100 - percent_free` overflows (panicking under overflow checks) when
`percent_free > 100`; both panicking executions are embedded as `none`. -/
def percentUsed (free total : Nat) : Option Nat :=
  if total / 100 = 0 then
    none
  else
    let percent_free := free / (total / 100)
    if 100 < percent_free then none else some (100 - percent_free)

/-- The full value computation of a Mem/Swap/DiskUsage arm: `percent_used` is
narrowed with `as u8` (truncation mod 256) and validated with
`Percent::new(...)?` before being pushed.  `none` is a panic; `some (.error v)`
is a `PercentError` propagated by `?` (fatal to the task). -/
def memMetricValue (free total : Nat) : Option (Except Nat Percent) :=
  match percentUsed free total with
  | none => none
  | some pu => some (Percent.new (pu % 256))

/-! ### The polling loop of `DialManager::run`

`DialManager::run` (`vupdaters/src/daemon.rs`, lines 542-681) loops forever:

```rust
loop {
    if !(*running.borrow()) {                       // pause handling
        while !(*running.borrow_and_update()) { running.changed().await?; }
        retry(&backoff, "set dial backlight", || dial.set_backlight(backlight)).await?;
    }
    let value = match metric {                      // sensor sampling
        Metric::Mem => match systemstat.memory() {
            Ok(Memory { total, free, .. }) => { ... Percent::new(percent_used as u8)? }
            Err(error) => { tracing::warn!(...); continue; }
        }
        ...
    };
    retry(&backoff, "set value", || dial.set(value)).await?;   // push
    if metric != Metric::CpuLoad { interval.tick().await; }    // wait
}
```

One iteration is embedded as a function of the environment's behaviour during
that iteration (the pause flag at the top, the outcome of the retried
backlight call, the sensor result, the outcome of the retried push) to the
sequence of observable events it performs and how the iteration ends.  The
sensor result for a Mem/Swap/DiskUsage-shaped metric is `some (free, total)`
on success and `none` on a sensor error. -/

/-- Observable events of one polling-loop iteration, in program order. -/
inductive Event
  /-- the blocking wait on `running.changed()` while paused -/
  | waitResume
  /-- a retried `dial.set_backlight(..)` call -/
  | callBacklight
  /-- a `systemstat` sensor sampling -/
  | sample
  /-- a retried `dial.set(value)` push carrying the pushed `u8` value -/
  | callSetValue (v : Nat)
  /-- an `interval.tick().await` -/
  | tick
deriving Repr, DecidableEq

/-- How one loop iteration ends: fall through to the next iteration, terminate
the task with an error (an `?` propagation, fatal to the task), or panic. -/
inductive IterOutcome
  | next
  | fatalStop
  | panicStop
deriving Repr, DecidableEq

/-- The environment's behaviour during one polling-loop iteration. -/
structure IterInput where
  /-- the value of `*running.borrow()` at the top of the iteration -/
  runningAtTop : Bool
  /-- whether the retried `set_backlight` call (made only after a pause)
  returns `Ok` rather than exhausting its retries -/
  backlightOk : Bool
  /-- the sensor reading: `some (free, total)` on success, `none` on error -/
  sensor : Option (Nat × Nat)
  /-- whether the retried `dial.set(value)` push returns `Ok` -/
  pushOk : Bool
deriving Repr, DecidableEq

/-- One iteration of the polling loop for a Mem/Swap/DiskUsage-shaped metric
(`vupdaters/src/daemon.rs`, lines 542-681).  Faithfully in program order:

* if `running` is `false` at the top, wait for the signal, then re-apply the
  backlight via `retry` (`?`: a retry failure is fatal);
* sample the sensor; on error, `continue` — which skips both the push *and*
  the trailing `interval.tick()`;
* on success compute `percent_used` (`percentUsed`; `none` is a panic),
  validate it with `Percent::new(.. as u8)?`, push it via `retry`
  (`?`: failure fatal), then `interval.tick().await`. -/
def memIteration (i : IterInput) : List Event × IterOutcome :=
  let pauseEvs : List Event :=
    if i.runningAtTop then [] else [.waitResume, .callBacklight]
  if !i.runningAtTop && !i.backlightOk then
    (pauseEvs, .fatalStop)
  else
    match i.sensor with
    | none => (pauseEvs ++ [.sample], .next)
    | some (free, total) =>
      match percentUsed free total with
      | none => (pauseEvs ++ [.sample], .panicStop)
      | some pu =>
        match Percent.new (pu % 256) with
        | .error _ => (pauseEvs ++ [.sample], .fatalStop)
        | .ok p =>
          if i.pushOk then
            (pauseEvs ++ [.sample, .callSetValue p.toU8, .tick], .next)
          else
            (pauseEvs ++ [.sample, .callSetValue p.toU8], .fatalStop)

/-- Whether the whole loop is still running after a finite prefix of
iterations. -/
inductive RunOutcome
  | running
  | fatalStop
  | panicStop
deriving Repr, DecidableEq

/-- Run the polling loop through a finite list of iteration environments,
concatenating the event traces; a fatal error or panic stops the loop. -/
def runPolling : List IterInput → List Event × RunOutcome
  | [] => ([], .running)
  | i :: rest =>
    match memIteration i with
    | (evs, .next) =>
      let (evs2, out) := runPolling rest
      (evs ++ evs2, out)
    | (evs, .fatalStop) => (evs, .fatalStop)
    | (evs, .panicStop) => (evs, .panicStop)

/-- An iteration in which the dial is running, the sensor fails, and the
device would accept any call: the environment of a pure sensor failure. -/
def sensorFailIter : IterInput :=
  { runningAtTop := true, backlightOk := true, sensor := none, pushOk := true }

/-! ### `Config::spawn_dial_managers`

`vupdaters/src/daemon.rs`, lines 410-452.  The discovery phase performs one
`client.list_dials().await?` and, for each listed dial, one
`dial.status().await?` — both propagate any error immediately with `?`
(neither call goes through the `retry` helper).  The matching phase iterates
the config's `dials` map; for each entry it does
`dials_by_index.remove(&config.index)`, spawning a manager on `Some` and
logging a warning on `None`; at the end `ensure!(dials_spawned > 0)`.

The `index → Dial` hash map is embedded as the list of discovered indices (a
dial is identified by its index here); the config map as an association list
of `(name, index)` (only the `index` field of `DialConfig` matters to the
matcher). -/

/-- `HashMap::remove` on the index map: `some` of the remaining indices when
`idx` is present (removing one occurrence), `none` when absent. -/
def removeIndex (idx : Nat) : List Nat → Option (List Nat)
  | [] => none
  | d :: ds =>
    if d = idx then some ds else (removeIndex idx ds).map (d :: ·)

/-- The matcher's running state: remaining devices, spawned managers, and the
entries that were logged as unmatched warnings. -/
structure SpawnState where
  devices : List Nat
  spawned : List (String × Nat)
  warned : List (String × Nat)
deriving Repr, DecidableEq

/-- The `for (name, config) in &self.dials` loop of `spawn_dial_managers`:
match each entry against the remaining devices, spawning on a hit and warning
on a miss. -/
def spawnLoop : List (String × Nat) → SpawnState → SpawnState
  | [], s => s
  | (name, idx) :: rest, s =>
    match removeIndex idx s.devices with
    | some ds =>
      spawnLoop rest { s with devices := ds, spawned := s.spawned ++ [(name, idx)] }
    | none =>
      spawnLoop rest { s with warned := s.warned ++ [(name, idx)] }

/-- The errors `spawn_dial_managers` can return: a propagated API error from
`list_dials` or a `status` call, or the `"no dials are connected!"` failure
from the final `ensure!`. -/
inductive SpawnError
  | api (e : ApiError)
  | noDials
deriving Repr, DecidableEq

/-- The discovery loop's status collection: `dial.status().await?.index` for
each listed dial, the first error propagating. -/
def collectStatuses : List (Except ApiError Nat) → Except ApiError (List Nat)
  | [] => .ok []
  | st :: rest =>
    match st with
    | .error e => .error e
    | .ok idx => (collectStatuses rest).map (idx :: ·)

/-- `Config::spawn_dial_managers` (`vupdaters/src/daemon.rs`, lines 410-452).
`listResult` is the result of the single `client.list_dials().await` call,
carrying for each listed dial the result of its single `dial.status().await`
call; both are propagated with `?`, not retried.  Returns the spawned
managers, or the first API error, or `SpawnError.noDials` when
`dials_spawned == 0`. -/
def spawn_dial_managers (listResult : Except ApiError (List (Except ApiError Nat)))
    (cfg : List (String × Nat)) : Except SpawnError (List (String × Nat)) :=
  match listResult with
  | .error e => .error (.api e)
  | .ok statuses =>
    match collectStatuses statuses with
    | .error e => .error (.api e)
    | .ok devices =>
      let s := spawnLoop cfg ⟨devices, [], []⟩
      if s.spawned.length > 0 then .ok s.spawned else .error .noDials

/-! ### The Retry Policy

`RetryConfig` and `RetryConfig::backoff_builder` (`vupdaters/src/daemon.rs`,
lines 27-40 and 687-726) configure the `backoff` crate's
`ExponentialBackoffBuilder`; the `retry` helper inside `DialManager::run`
(lines 483-499) calls `backoff::future::retry_notify(backoff.build(), ..)`,
building a **fresh** `ExponentialBackoff` state from the (immutable, shared)
builder on every call.

Durations are embedded in milliseconds as `Nat`.  The `f64` multiplier and
randomization factor are embedded as the exact rationals they denote.  The
randomized jitter applied to each sleep is not modelled: delays here are the
nominal `current_interval` values around which the `backoff` crate
randomizes, which is what "a sequence starting at `initial_backoff`" refers
to.  Elapsed time is accounted as the sum of the sleeps performed. -/

/-- `backoff::ExponentialBackoffBuilder` with the crate's defaults
(`INITIAL_INTERVAL_MILLIS = 500`, `RANDOMIZATION_FACTOR = 0.5`,
`MULTIPLIER = 1.5`, `MAX_INTERVAL_MILLIS = 60_000`,
`MAX_ELAPSED_TIME_MILLIS = 900_000`). -/
structure ExponentialBackoffBuilder where
  initial_interval : Nat := 500
  randomization_factor : ℚ := (1 : ℚ) / 2
  multiplier : ℚ := (3 : ℚ) / 2
  max_interval : Nat := 60000
  max_elapsed_time : Option Nat := some 900000
deriving Repr, DecidableEq

/-- `RetryConfig` (`vupdaters/src/daemon.rs`, lines 27-40), with the defaults
of its `Default` impl (lines 687-698), which reuse the `backoff` crate's
default constants. -/
structure RetryConfig where
  initial_backoff : Nat := 500
  jitter : ℚ := (1 : ℚ) / 2
  multiplier : ℚ := (3 : ℚ) / 2
  max_backoff : Nat := 60000
  max_elapsed_time : Option Nat := some 900000
deriving Repr, DecidableEq

/-- `ExponentialBackoffBuilder::new()`: all fields at the crate defaults. -/
def ExponentialBackoffBuilder.new : ExponentialBackoffBuilder :=
  {}

/-- `RetryConfig::backoff_builder` (`vupdaters/src/daemon.rs`, lines 717-725):
starts from `ExponentialBackoffBuilder::new()` and sets the initial interval,
randomization factor, max interval and max elapsed time from the config.
(As in the source, the config's `multiplier` field is *not* applied: the
builder keeps the crate default.) -/
def RetryConfig.backoff_builder (c : RetryConfig) : ExponentialBackoffBuilder :=
  { ExponentialBackoffBuilder.new with
      initial_interval := c.initial_backoff
      randomization_factor := c.jitter
      max_interval := c.max_backoff
      max_elapsed_time := c.max_elapsed_time }

/-- The `backoff` crate's `ExponentialBackoff` state: the mutable
`current_interval` / elapsed-time state threaded through one retried call. -/
structure ExponentialBackoff where
  current_interval : Nat
  initial_interval : Nat
  randomization_factor : ℚ
  multiplier : ℚ
  max_interval : Nat
  elapsed : Nat
  max_elapsed_time : Option Nat
deriving Repr, DecidableEq

/-- `ExponentialBackoffBuilder::build`: a fresh state whose
`current_interval` is the builder's `initial_interval` and whose elapsed
time is zero. -/
def ExponentialBackoffBuilder.build (b : ExponentialBackoffBuilder) : ExponentialBackoff :=
  { current_interval := b.initial_interval
    initial_interval := b.initial_interval
    randomization_factor := b.randomization_factor
    multiplier := b.multiplier
    max_interval := b.max_interval
    elapsed := 0
    max_elapsed_time := b.max_elapsed_time }

/-- One backoff step: emit the current interval as the sleep, then advance
`current_interval` to `min(current_interval * multiplier, max_interval)` and
account the sleep in the elapsed time. -/
def ExponentialBackoff.step (st : ExponentialBackoff) : Nat × ExponentialBackoff :=
  let delay := st.current_interval
  let nextInterval := min (st.multiplier * (st.current_interval : ℚ)).floor.toNat st.max_interval
  (delay, { st with current_interval := nextInterval, elapsed := st.elapsed + delay })

/-- `ExponentialBackoff::next_backoff`: give up (`none`) once the elapsed
time exceeds `max_elapsed_time`, otherwise produce the next sleep and the
advanced state. -/
def ExponentialBackoff.next_backoff (st : ExponentialBackoff) : Option (Nat × ExponentialBackoff) :=
  match st.max_elapsed_time with
  | some m => if m < st.elapsed then none else some st.step
  | none => some st.step

/-- The result of one retried call. -/
inductive RetryResult
  /-- the operation returned `Ok` -/
  | success
  /-- the classifier marked an error permanent: returned immediately -/
  | permanentErr (e : ApiError)
  /-- `next_backoff` returned `None` (elapsed-time budget exhausted): the
  last transient error is returned -/
  | gaveUp (e : ApiError)
  /-- artifact of the finite embedding: the supplied attempt list ran out -/
  | pending
deriving Repr, DecidableEq

/-- `backoff::future::retry_notify` over a finite list of successive attempt
results: on `Ok` stop with success; on an error classified permanent by
`backoff_error` stop with that error; on a transient error consult
`next_backoff`, either giving up or sleeping for the produced delay (recorded
in the returned delay list) and trying the next attempt. -/
def retry_notify :
    ExponentialBackoff → List (Except ApiError Unit) → List Nat × RetryResult
  | _, [] => ([], .pending)
  | st, r :: rest =>
    match r with
    | .ok _ => ([], .success)
    | .error e =>
      match backoff_error e with
      | .permanent => ([], .permanentErr e)
      | .transient =>
        match st.next_backoff with
        | none => ([], .gaveUp e)
        | some (delay, st2) =>
          let (ds, res) := retry_notify st2 rest
          (delay :: ds, res)

/-- The `retry` helper of `DialManager::run` (`vupdaters/src/daemon.rs`,
lines 483-499): every invocation calls `backoff.build()` on the manager's
builder and runs `retry_notify` from that fresh state. -/
def retry (backoff : ExponentialBackoffBuilder) (attempts : List (Except ApiError Unit)) :
    List Nat × RetryResult :=
  retry_notify backoff.build attempts

/-- A dial manager's successive retried calls: the manager owns one immutable
builder (`DialManager.backoff`) and passes `&backoff` to `retry` for each
operation, so each call in the sequence is `retry backoff`. -/
def managerRetryCalls (backoff : ExponentialBackoffBuilder)
    (calls : List (List (Except ApiError Unit))) : List (List Nat × RetryResult) :=
  calls.map (retry backoff)

end Vupdaters

/-! ## Theorems -/

namespace VuApi

/-- **C2**. For every `u8` value `v`: if `v ≤ 100` then `Percent::new v`
succeeds and converting the result back with `u8::from` yields `v`; if
`v > 100` then `Percent::new v` fails with a `PercentError` carrying `v`.
Hence a constructed `Percent` is never observably outside `[0, 100]`. -/
theorem percent_new_roundtrip (v : Nat) (hv : v ≤ 255) :
    (v ≤ 100 → ∃ p : Percent, Percent.new v = .ok p ∧ p.toU8 = v) ∧
    (100 < v → Percent.new v = .error v) := by
  constructor
  · intro h
    refine ⟨⟨v⟩, ?_, rfl⟩
    simp [Percent.new, Nat.not_lt.mpr h]
  · intro h
    simp [Percent.new, h]

/-- Witness for `percent_new_roundtrip`: instantiated at `v = 42`. -/
theorem percent_new_roundtrip_witness :
    ∃ p : Percent, Percent.new 42 = .ok p ∧ p.toU8 = 42 := by
  exact (percent_new_roundtrip 42 (by decide)).1 (by decide)

end VuApi

namespace Vupdaters

open VuApi

/-- **C1** (counterexample). The polling loop of `DialManager::run` tracks no
sensor-failure streak at all: after 20 consecutive sensor failures — far past
the claimed threshold of 4 — the task has performed nothing but 20 samplings
and is still running, contradicting the claimed fatal termination. -/
theorem sensor_streak_counterexample :
    runPolling (List.replicate 20 sensorFailIter)
      = (List.replicate 20 Event.sample, RunOutcome.running) := by
  decide

/-- **C1** (amended). No consecutive-sensor-failure streak is tracked in the
polling loop: for every `n`, `n` consecutive sensor failures leave the task
running, with no push, no fatal error, and no tick — each failure just logs
and re-enters the loop. (A success therefore trivially never has a counter to
reset.) -/
theorem sensor_failures_never_fatal (n : Nat) :
    runPolling (List.replicate n sensorFailIter)
      = (List.replicate n Event.sample, RunOutcome.running) := by
  induction n with
  | zero => rfl
  | succ n ih =>
    have h1 : memIteration sensorFailIter = ([Event.sample], IterOutcome.next) := rfl
    simp [List.replicate_succ, runPolling, h1, ih]

/-- **C3**. In every polling-loop iteration that reads `running = false` at
the top, the iteration's first action is to block on the signal
(`waitResume` heads the trace, so no device push happens until the signal
reads true), and every value-push call in the iteration's trace is strictly
preceded by a backlight-set call. -/
theorem paused_backlight_before_push (i : IterInput) (hp : i.runningAtTop = false) :
    (memIteration i).1.head? = some Event.waitResume
    ∧ ∀ k v, (memIteration i).1.get? k = some (Event.callSetValue v) →
        ∃ j, j < k ∧ (memIteration i).1.get? j = some Event.callBacklight := by
  obtain ⟨r, b, sensor, p⟩ := i
  cases hp
  have h : ∃ t, (memIteration ⟨false, b, sensor, p⟩).1
      = Event.waitResume :: Event.callBacklight :: t := by
    cases b with
    | false => exact ⟨[], rfl⟩
    | true =>
      cases sensor with
      | none => exact ⟨[.sample], rfl⟩
      | some ft =>
        obtain ⟨f, t⟩ := ft
        rcases hpu : percentUsed f t with _ | pu
        · exact ⟨[.sample], by simp [memIteration, hpu]⟩
        · rcases hnew : Percent.new (pu % 256) with e | q
          · exact ⟨[.sample], by simp [memIteration, hpu, hnew]⟩
          · cases p with
            | false =>
              exact ⟨[.sample, .callSetValue q.toU8], by simp [memIteration, hpu, hnew]⟩
            | true =>
              exact ⟨[.sample, .callSetValue q.toU8, .tick],
                by simp [memIteration, hpu, hnew]⟩
  obtain ⟨t, ht⟩ := h
  rw [ht]
  refine ⟨rfl, ?_⟩
  intro k v hk
  match k with
  | 0 => simp at hk
  | 1 => simp at hk
  | k + 2 => exact ⟨1, by omega, rfl⟩

/-- Witness for `paused_backlight_before_push`: a paused iteration with a
successful sensor read of `(free, total) = (50, 200)`; the value push
(`callSetValue 75` at position 3 of the trace) is preceded by the
backlight-set call at position 1. -/
theorem paused_backlight_before_push_witness :
    ∃ j, j < 3 ∧ (memIteration ⟨false, true, some (50, 200), true⟩).1.get? j
        = some Event.callBacklight :=
  (paused_backlight_before_push ⟨false, true, some (50, 200), true⟩ rfl).2 3 75 (by decide)

/-- **C8** (counterexample). After a sensor-failure iteration the loop does
*not* wait for the next interval tick: the `continue` skips the trailing
`interval.tick().await`, so the next sampling happens immediately.  Running a
failed-sensor iteration followed by a successful one produces two consecutive
`sample` events with no `tick` between them. -/
theorem sensor_failure_no_tick_counterexample :
    runPolling [sensorFailIter, ⟨true, true, some (50, 200), true⟩]
      = ([Event.sample, Event.sample, Event.callSetValue 75, Event.tick],
          RunOutcome.running)
    ∧ (runPolling [sensorFailIter, ⟨true, true, some (50, 200), true⟩]).1.take 2
        = [Event.sample, Event.sample] := by
  decide

/-- **C8** (amended). In every polling iteration in which the sensor fails,
the Dial Manager neither terminates nor pushes a value — but it does *not*
wait for the interval tick: the iteration performs exactly one sampling and
falls straight through to the next iteration (the `continue` skips the
end-of-iteration `interval.tick()`). -/
theorem sensor_failure_nonfatal_no_wait (b p : Bool) (rest : List IterInput) :
    memIteration ⟨true, b, none, p⟩ = ([Event.sample], IterOutcome.next)
    ∧ runPolling (⟨true, b, none, p⟩ :: rest)
        = (Event.sample :: (runPolling rest).1, (runPolling rest).2) := by
  refine ⟨rfl, ?_⟩
  rcases hr : runPolling rest with ⟨evs2, out⟩
  simp [runPolling, memIteration, hr]

/-- **C6** (counterexample). At a sample with `free = 75`, `total = 150` the
code pushes `100 - 75 / (150 / 100) = 25`, while the claimed formula
`100 - (free × 100) / total` gives `50`: the pushed value is *not*
`100 - (free × 100) / total` in general. -/
theorem percent_used_formula_counterexample :
    memMetricValue 75 150 = some (Except.ok ⟨25⟩)
    ∧ 100 - 75 * 100 / 150 = 50
    ∧ (25 : Nat) ≠ 50 :=
  ⟨rfl, by decide, by decide⟩

/-- **C6** (amended). The Mem/Swap/DiskUsage arms compute
`percent_used = 100 - free / (total / 100)` with integer floor division, the
divisor `total / 100` being floored *first*.  When `total` is a multiple of
100 (and `free ≤ total`, so no panic occurs) this agrees with the claimed
`100 - (free × 100) / total`; otherwise the two formulas differ. -/
theorem percent_used_formula (k free : Nat) (hk : 1 ≤ k) (hf : free ≤ 100 * k) :
    ∃ p : Percent, memMetricValue free (100 * k) = some (.ok p)
      ∧ p.toU8 = 100 - free / k
      ∧ p.toU8 = 100 - free * 100 / (100 * k) := by
  have hdiv : 100 * k / 100 = k := Nat.mul_div_cancel_left k (by norm_num)
  have hk0 : k ≠ 0 := by omega
  have hpf : free / k ≤ 100 := by
    have h1 : free / k ≤ 100 * k / k := Nat.div_le_div_right hf
    rwa [Nat.mul_div_cancel 100 (Nat.pos_of_ne_zero hk0)] at h1
  have hpu : percentUsed free (100 * k) = some (100 - free / k) := by
    simp only [percentUsed, hdiv]
    rw [if_neg hk0, if_neg (by omega : ¬ 100 < free / k)]
  have hle : 100 - free / k ≤ 100 := Nat.sub_le 100 (free / k)
  have hmod : (100 - free / k) % 256 = 100 - free / k :=
    Nat.mod_eq_of_lt (lt_of_le_of_lt hle (by norm_num))
  have hnew : Percent.new ((100 - free / k) % 256) = .ok ⟨100 - free / k⟩ := by
    unfold Percent.new
    rw [hmod, if_neg (Nat.not_lt.mpr hle)]
  refine ⟨⟨100 - free / k⟩, ?_, rfl, ?_⟩
  · unfold memMetricValue
    rw [hpu]
    show some (Percent.new ((100 - free / k) % 256)) = some (.ok ⟨100 - free / k⟩)
    rw [hnew]
  · show 100 - free / k = 100 - free * 100 / (100 * k)
    rw [mul_comm 100 k, Nat.mul_div_mul_right _ _ (by norm_num : 0 < 100)]

/-- Witness for `percent_used_formula`: `free = 50`, `total = 200`. -/
theorem percent_used_formula_witness :
    ∃ p : Percent, memMetricValue 50 (100 * 2) = some (.ok p)
      ∧ p.toU8 = 100 - 50 / 2
      ∧ p.toU8 = 100 - 50 * 100 / (100 * 2) :=
  percent_used_formula 2 50 (by decide) (by decide)

/-- **C10**. The Mem/Swap/DiskUsage conversion is not total: when
`total < 100` the divisor `total / 100` is zero and the division panics; and
when `free / (total / 100)` exceeds 100 the unsigned subtraction
`100 - percent_free` overflows.  In both cases the iteration ends in a panic
(`panicStop`), not in the non-fatal sensor-error path (`next`). -/
theorem metric_conversion_panics (free total f t : Nat) (pushOk backlightOk : Bool)
    (h : total < 100) (hft : 100 < f / (t / 100)) :
    total / 100 = 0
    ∧ percentUsed free total = none
    ∧ memIteration ⟨true, backlightOk, some (free, total), pushOk⟩
        = ([Event.sample], IterOutcome.panicStop)
    ∧ percentUsed f t = none
    ∧ memIteration ⟨true, backlightOk, some (f, t), pushOk⟩
        = ([Event.sample], IterOutcome.panicStop) := by
  have h0 : total / 100 = 0 := Nat.div_eq_of_lt h
  have h1 : percentUsed free total = none := by
    simp [percentUsed, h0]
  have h2 : percentUsed f t = none := by
    have ht0 : t / 100 ≠ 0 := by
      intro h'
      rw [h'] at hft
      simp at hft
    simp only [percentUsed]
    rw [if_neg ht0, if_pos hft]
  exact ⟨h0, h1, by simp [memIteration, h1], h2, by simp [memIteration, h2]⟩

/-- Witness for `metric_conversion_panics`: a swap sample with
`total = 0` (no swap configured) panics by zero division, and a disk sample
with `free = total = 199` bytes gives `percent_free = 199` and an overflowing
subtraction. -/
theorem metric_conversion_panics_witness :
    (0 : Nat) / 100 = 0
    ∧ percentUsed 0 0 = none
    ∧ memIteration ⟨true, true, some (0, 0), true⟩
        = ([Event.sample], IterOutcome.panicStop)
    ∧ percentUsed 199 199 = none
    ∧ memIteration ⟨true, true, some (199, 199), true⟩
        = ([Event.sample], IterOutcome.panicStop) :=
  metric_conversion_panics 0 0 199 199 true true (by decide) (by decide)

/-- **C4**. The retry classifier `backoff_error` maps exactly the four
build/configuration variants (`BuildUrl`, `BuildRequest`, `InvalidBacklight`,
`InvalidValue`) to permanent errors, and every other variant (`Request`
transport failures, `ServerHttp` HTTP error statuses, `Server`-reported
failures, `DecodeJson` decode errors) to transient errors eligible for
retry. -/
theorem backoff_error_classification (e : ApiError) :
    backoff_error e = .permanent ↔
      (e = .BuildUrl ∨ e = .BuildRequest ∨
        e = .InvalidBacklight ∨ e = .InvalidValue) := by
  cases e <;> simp [backoff_error]

/-- `HashMap::remove` returning `Some` removes exactly one entry. -/
theorem removeIndex_length {idx : Nat} :
    ∀ {l l' : List Nat}, removeIndex idx l = some l' → l'.length + 1 = l.length := by
  intro l
  induction l with
  | nil => intro l' h; simp [removeIndex] at h
  | cons d ds ih =>
    intro l' h
    simp only [removeIndex] at h
    by_cases hd : d = idx
    · rw [if_pos hd] at h
      injection h with h
      subst h
      rfl
    · rw [if_neg hd] at h
      rcases hmap : removeIndex idx ds with _ | ds'
      · rw [hmap] at h
        exact absurd h (by simp)
      · rw [hmap] at h
        injection h with h
        subst h
        have := ih hmap
        simp only [List.length_cons]
        omega

/-- Counting through the matcher loop: each config entry lands in exactly one
of `spawned`/`warned`, and each spawn consumes exactly one device. -/
theorem spawnLoop_counts (cfg : List (String × Nat)) :
    ∀ s : SpawnState,
      ((spawnLoop cfg s).spawned.length + (spawnLoop cfg s).warned.length
        = cfg.length + s.spawned.length + s.warned.length)
      ∧ ((spawnLoop cfg s).spawned.length + (spawnLoop cfg s).devices.length
        = s.spawned.length + s.devices.length) := by
  induction cfg with
  | nil => intro s; simp [spawnLoop]
  | cons entry rest ih =>
    intro s
    obtain ⟨name, idx⟩ := entry
    rcases hrm : removeIndex idx s.devices with _ | ds
    · have hthis := ih { s with warned := s.warned ++ [(name, idx)] }
      simp only [spawnLoop, hrm]
      simp only [List.length_append, List.length_cons, List.length_nil,
        List.length_singleton] at hthis ⊢
      omega
    · have hlen := removeIndex_length hrm
      have hthis := ih { s with devices := ds, spawned := s.spawned ++ [(name, idx)] }
      simp only [spawnLoop, hrm]
      simp only [List.length_append, List.length_cons, List.length_nil,
        List.length_singleton] at hthis ⊢
      omega

/-- The discovery loop succeeds on an all-successful status list, collecting
the indices in order. -/
theorem collectStatuses_ok (devices : List Nat) :
    collectStatuses (devices.map .ok) = .ok devices := by
  induction devices with
  | nil => rfl
  | cons d ds ih => simp [collectStatuses, ih, Except.map]

/-- **C5**. `spawn_dial_managers` spawns exactly one manager per config entry
matched to a discovered device and warns on every unmatched entry
(`spawned` and `warned` partition the config entries by count), each spawn
consumes exactly one device (so a device is used at most once), and — with a
successful discovery — the result is the `"no dials are connected!"` fatal
error if and only if zero entries were matched.  On the spec's example
(config indices `{0, 1, 2}`, devices `{0, 2}`) exactly the two entries with
indices 0 and 2 are spawned and the index-1 entry is warned. -/
theorem spawn_dial_managers_matching (cfg : List (String × Nat)) (devices : List Nat) :
    ((spawnLoop cfg ⟨devices, [], []⟩).spawned.length
        + (spawnLoop cfg ⟨devices, [], []⟩).warned.length = cfg.length)
    ∧ ((spawnLoop cfg ⟨devices, [], []⟩).spawned.length
        + (spawnLoop cfg ⟨devices, [], []⟩).devices.length = devices.length)
    ∧ (spawn_dial_managers (.ok (devices.map .ok)) cfg = .error .noDials
        ↔ (spawnLoop cfg ⟨devices, [], []⟩).spawned = [])
    ∧ spawnLoop [("a", 0), ("b", 1), ("c", 2)] ⟨[0, 2], [], []⟩
        = ⟨[], [("a", 0), ("c", 2)], [("b", 1)]⟩ := by
  obtain ⟨hcount, hdev⟩ := spawnLoop_counts cfg (⟨devices, [], []⟩ : SpawnState)
  refine ⟨by simpa using hcount, by simpa using hdev, ?_, by decide⟩
  have h1 : spawn_dial_managers (.ok (devices.map .ok)) cfg
      = (match collectStatuses (devices.map .ok) with
          | .error e => .error (.api e)
          | .ok devs =>
            let s := spawnLoop cfg (⟨devs, [], []⟩ : SpawnState)
            if s.spawned.length > 0 then Except.ok s.spawned
            else .error .noDials) := rfl
  have hrun : spawn_dial_managers (.ok (devices.map .ok)) cfg
      = (if (spawnLoop cfg ⟨devices, [], []⟩).spawned.length > 0
          then .ok (spawnLoop cfg ⟨devices, [], []⟩).spawned
          else .error .noDials) := by
    rw [h1, collectStatuses_ok]
  rw [hrun]
  by_cases hsp : (spawnLoop cfg ⟨devices, [], []⟩).spawned = []
  · simp [hsp]
  · have hpos : (spawnLoop cfg ⟨devices, [], []⟩).spawned.length > 0 :=
      List.length_pos.mpr hsp
    simp [if_pos hpos, hsp]

/-- **C7** (counterexample). A single `Request` (transport) failure of
`list_dials` — an error the daemon's own classifier marks transient — makes
`spawn_dial_managers` fail immediately, with the retry budget untouched: the
same attempt sequence run through the `retry` helper (one transient failure,
then success) would have succeeded after one 500 ms backoff. -/
theorem startup_discovery_not_retried_counterexample :
    spawn_dial_managers (.error .Request) [("cpu", 0)] = .error (.api .Request)
    ∧ backoff_error .Request = .transient
    ∧ retry ExponentialBackoffBuilder.new [.error .Request, .ok ()]
        = ([500], .success) := by
  refine ⟨rfl, rfl, ?_⟩
  decide

/-- **C7** (amended). The device-list call and the per-device status calls in
`spawn_dial_managers` are *not* wrapped in the Retry Policy: any failure of
the single `list_dials` attempt, or of the single `status` attempt for the
first listed device, propagates immediately — transient or not. -/
theorem startup_discovery_not_retried (e : ApiError) (cfg : List (String × Nat))
    (sts : List (Except ApiError Nat)) :
    spawn_dial_managers (.error e) cfg = .error (.api e)
    ∧ spawn_dial_managers (.ok (.error e :: sts)) cfg = .error (.api e) :=
  ⟨rfl, rfl⟩

/-- **C9**. The manager's retried calls share only the immutable
`ExponentialBackoffBuilder`: the outcome and delay sequence of the `i`-th
retried call is `retry builder` applied to that call's own attempt results
alone — no backoff state is carried over from any other call — and a call's
first backoff delay is always the configured `initial_backoff`, because
`retry` runs `backoff.build()` afresh (fresh `current_interval =
initial_interval`, fresh zero elapsed time) on every invocation. -/
theorem retry_backoff_fresh (cfg : RetryConfig)
    (calls : List (List (Except ApiError Unit))) (i : Nat)
    (e : ApiError) (rest : List (Except ApiError Unit))
    (he : backoff_error e = .transient) :
    (managerRetryCalls cfg.backoff_builder calls)[i]?
        = (calls[i]?).map (retry cfg.backoff_builder)
    ∧ (retry cfg.backoff_builder (.error e :: rest)).1.head?
        = some cfg.initial_backoff := by
  constructor
  · simp [managerRetryCalls]
  · have hnb : (cfg.backoff_builder.build).next_backoff
        = some (cfg.initial_backoff, (cfg.backoff_builder.build).step.2) := by
      unfold ExponentialBackoff.next_backoff
      rcases hm : cfg.max_elapsed_time with _ | m
      · simp [RetryConfig.backoff_builder, ExponentialBackoffBuilder.build, hm,
          ExponentialBackoff.step]
      · simp [RetryConfig.backoff_builder, ExponentialBackoffBuilder.build, hm,
          ExponentialBackoff.step]
    rw [retry, retry_notify, he]
    rcases hr : retry_notify (cfg.backoff_builder.build).step.2 rest with ⟨ds, res⟩
    simp only [hnb, hr]
    rfl

/-- Witness for `retry_backoff_fresh`: the default `RetryConfig`, one prior
call, and a second call whose first attempt fails with a transient `Request`
error. -/
theorem retry_backoff_fresh_witness :
    ((managerRetryCalls (RetryConfig.backoff_builder {}) [[.ok ()]])[0]?
        = (([[.ok ()]] : List (List (Except ApiError Unit)))[0]?).map
            (retry (RetryConfig.backoff_builder {})))
    ∧ (retry (RetryConfig.backoff_builder {}) [.error .Request, .ok ()]).1.head?
        = some (RetryConfig.initial_backoff {}) :=
  retry_backoff_fresh {} [[.ok ()]] 0 .Request [.ok ()] (by decide)

end Vupdaters
